import Mathlib

/-!
Verification of the gridtools stencil engine specification against a shallow
embedding of the sources:
  src/include/hybrid_pointer.h
  src/include/stencil-composition/esf_metafunctions.hpp
  src/include/stencil-composition/icosahedral_grids/backend_host/grid_traits_host.hpp
  src/examples/icosahedral/stencil_on_cells.hpp
-/

namespace GridTools

/-- Build configuration flags governing the C++ sources: `ndebug` is whether
the NDEBUG macro is defined (release build), `cudacc` is whether __CUDACC__ is
defined (accelerator support compiled in), `cudaArch` is whether __CUDA_ARCH__
is defined (the code is being compiled for the accelerator context). -/
structure BuildCfg where
  ndebug : Bool
  cudacc : Bool
  cudaArch : Bool
  deriving DecidableEq, Repr

/-- Modelled from the spec: gt_assert.h (included by hybrid_pointer.h) is not
under src/.  Per spec section 7, out-of-range access "triggers a checked
assertion in debug configurations only — in release configurations (and
unconditionally inside the accelerator strategy) it is undefined behavior",
so an assert statement is active exactly when NDEBUG is not defined and the
code is not compiled for the accelerator context. -/
def assertActive (cfg : BuildCfg) : Bool := !cfg.ndebug && !cfg.cudaArch

/-- The four data members of gridtools::hybrid_pointer (hybrid_pointer.h lines
11-14); raw pointers are modelled as integer addresses. -/
structure hybrid_pointer where
  cpu_p : Int
  gpu_p : Int
  pointer_to_use : Int
  size : Int
  deriving DecidableEq, Repr

/-- hybrid_pointer(int size), hybrid_pointer.h lines 16-22: runs allocate_it
(which writes cpu_p, and gpu_p under __CUDACC__), then sets
pointer_to_use = cpu_p.  `cpuAddr` and `gpuAddr` are the addresses produced by
new and cudaMalloc respectively. -/
def hostCtor (cpuAddr gpuAddr sz : Int) : hybrid_pointer :=
  { cpu_p := cpuAddr, gpu_p := gpuAddr, pointer_to_use := cpuAddr, size := sz }

/-- hybrid_pointer(hybrid_pointer const&), hybrid_pointer.h lines 24-44:
member-initializes cpu_p and gpu_p from the source object by value, binds
pointer_to_use to gpu_p under __CUDA_ARCH__ and to cpu_p otherwise, and copies
size by value. -/
def copyCtor (cfg : BuildCfg) (other : hybrid_pointer) : hybrid_pointer :=
  { cpu_p := other.cpu_p
    gpu_p := other.gpu_p
    pointer_to_use := if cfg.cudaArch then other.gpu_p else other.cpu_p
    size := other.size }

/-- Outcome of an element access: a defined value, a failed (checked)
assertion, or undefined behavior. -/
inductive Access (T : Type) where
  | ok : T → Access T
  | assertFail : Access T
  | undefBehavior : Access T
  deriving DecidableEq, Repr

/-- operator[](int i), hybrid_pointer.h lines 106-121: asserts i < size and
i >= 0 (when asserts are active), then reads pointer_to_use[i].  With asserts
inactive, an out-of-range read is undefined behavior; `mem` is the flat
address space. -/
def opIndex {T : Type} (cfg : BuildCfg) (mem : Int → T) (hp : hybrid_pointer)
    (i : Int) : Access T :=
  if assertActive cfg then
    if i < hp.size then
      if i ≥ 0 then .ok (mem (hp.pointer_to_use + i)) else .assertFail
    else .assertFail
  else
    if 0 ≤ i ∧ i < hp.size then .ok (mem (hp.pointer_to_use + i)) else .undefBehavior

/-- operator+(int i), hybrid_pointer.h lines 133-141: returns
&pointer_to_use[i] with no assertion or bound check in any configuration. -/
def opPlus (cfg : BuildCfg) (hp : hybrid_pointer) (i : Int) : Access Int :=
  .ok (hp.pointer_to_use + i)

/-- operator*, hybrid_pointer.h lines 123-131: dereferences pointer_to_use
with no check. -/
def opStar {T : Type} (cfg : BuildCfg) (mem : Int → T) (hp : hybrid_pointer) :
    Access T :=
  .ok (mem hp.pointer_to_use)

/-- operator T* and operator T const*, hybrid_pointer.h lines 96-104: yield
pointer_to_use with no check. -/
def convPtr (cfg : BuildCfg) (hp : hybrid_pointer) : Access Int :=
  .ok hp.pointer_to_use

/-- Observable effect of running allocate_it / the hybrid_pointer constructor:
which buffers got allocated and which diagnostic lines were printed. -/
structure CtorEffect where
  hostAllocated : Bool
  gpuAllocated : Bool
  diagnostics : List String
  deriving DecidableEq, Repr

/-- The diagnostic line printed by allocate_it when cudaMalloc fails
(hybrid_pointer.h lines 49-56). -/
def allocErrMsg : String := "Error allocating storage"

/-- allocate_it(int size), hybrid_pointer.h lines 46-59: under __CUDACC__ it
calls cudaMalloc for gpu_p and, if the call fails (`cudaOk = false`), prints a
diagnostic and falls through; in every case it then allocates the host buffer
with new.  Nothing in the body throws or aborts. -/
def allocate_it (cudacc cudaOk : Bool) : CtorEffect :=
  let gpuPart : CtorEffect :=
    if cudacc then
      if cudaOk then { hostAllocated := false, gpuAllocated := true, diagnostics := [] }
      else { hostAllocated := false, gpuAllocated := false, diagnostics := [allocErrMsg] }
    else { hostAllocated := false, gpuAllocated := false, diagnostics := [] }
  { gpuPart with hostAllocated := true }

/-- Observable effect of free_it, hybrid_pointer.h lines 61-66: cudaFree(gpu_p)
only under __CUDACC__, then delete of the host buffer. -/
structure FreeEffect where
  hostFreed : Bool
  gpuFreed : Bool
  deriving DecidableEq, Repr

/-- free_it(), hybrid_pointer.h lines 61-66. -/
def free_it (cudacc : Bool) : FreeEffect :=
  { hostFreed := true, gpuFreed := cudacc }

/-- The buffer contents of a hybrid_pointer: the host-resident and the
accelerator-resident copy, each of `size` elements. -/
structure HPMem (T : Type) where
  cpu : Nat → T
  gpu : Nat → T
  size : Nat

/-- update_gpu(), hybrid_pointer.h lines 68-75: under __CUDACC__, a
cudaMemcpy of size elements host-to-device; otherwise the body is empty. -/
def update_gpu {T : Type} (cudacc : Bool) (m : HPMem T) : HPMem T :=
  if cudacc then
    { m with gpu := fun a => if a < m.size then m.cpu a else m.gpu a }
  else m

/-- update_cpu(), hybrid_pointer.h lines 77-84: under __CUDACC__, a
cudaMemcpy of size elements device-to-host; otherwise the body is empty. -/
def update_cpu {T : Type} (cudacc : Bool) (m : HPMem T) : HPMem T :=
  if cudacc then
    { m with cpu := fun a => if a < m.size then m.gpu a else m.cpu a }
  else m

/-- A host-side element write through the host buffer. -/
def writeHost {T : Type} (m : HPMem T) (i : Nat) (v : T) : HPMem T :=
  { m with cpu := fun a => if a = i then v else m.cpu a }

/-- Modelled from the spec: the accelerator execution strategy is not under
src/.  Per spec section 8, the round-trip property runs "an identity Rule on
the accelerator strategy": each device-buffer element is rewritten through the
identity function; the host buffer is untouched. -/
def identityKernelDevice {T : Type} (m : HPMem T) : HPMem T :=
  { m with gpu := fun a => if a < m.size then id (m.gpu a) else m.gpu a }

/-! ## Icosahedral grid, stage membership predicate, backend traits -/

/-- A GridPoint (i, color, j, k): horizontal index, color, horizontal second
index, vertical level. -/
structure GridPoint where
  i : Nat
  c : Nat
  j : Nat
  k : Nat
  deriving DecidableEq, Repr

/-- The component order of a GridPoint as the spec data model declares it:
(i, color, j, k). -/
def components (p : GridPoint) : List Nat := [p.i, p.c, p.j, p.k]

/-- Mesh dimensions (d1, d2, d3) and the color count of the location type,
as passed to icosahedral_topology (stencil_on_cells.hpp lines 40-52). -/
structure Mesh where
  d1 : Nat
  d2 : Nat
  d3 : Nat
  nColors : Nat
  deriving DecidableEq, Repr

/-- The horizontal halo widths fixed by the example
(stencil_on_cells.hpp lines 46-47): halo_nc = 1, halo_mc = 1. -/
def halo_nc : Nat := 1

def halo_mc : Nat := 1

/-- The interior iteration box of the example, from the grid bounds
di = {halo_nc, halo_nc, halo_nc, d1-halo_nc-1, d1},
dj = {halo_mc, halo_mc, halo_mc, d2-halo_mc-1, d2}
(stencil_on_cells.hpp lines 91-92) and the reference loops (lines 124-127):
halo_nc <= i < d1 - halo_nc, c < n_colors, halo_mc <= j < d2 - halo_mc,
0 <= k < d3.  Parameterized over the halo widths hn, hm. -/
def interiorB (m : Mesh) (hn hm : Nat) (p : GridPoint) : Bool :=
  (hn ≤ p.i) && (p.i < m.d1 - hn) && (p.c < m.nColors) &&
    (hm ≤ p.j) && (p.j < m.d2 - hm) && (p.k < m.d3)

/-- Modelled from the spec: the on_cells / neighbor reduction implementation is
not under src/.  Per spec section 4.3 it "left-folds the combiner over
(accumulator, sourceValue) pairs in the order the provider enumerates them,
starting from the seed"; `ff` receives the source value first and the
accumulator second, matching the lambda of test_on_cells_functor::Do. -/
def reduceNbrs (ff : ℚ → ℚ → ℚ) (seed : ℚ) (val : GridPoint → ℚ)
    (ns : List GridPoint) : ℚ :=
  ns.foldl (fun res n => ff (val n) res) seed

/-- test_on_cells_functor::Do, stencil_on_cells.hpp lines 27-35:
ff = [](in, res) { return in + res; };
eval(out()) = eval(on_cells(ff, 0.0, in())).
`nbrs` is the (cells, cells) neighbor table of the topology provider. -/
def stencilDo (nbrs : GridPoint → List GridPoint) (inv : GridPoint → ℚ)
    (p : GridPoint) : ℚ :=
  reduceNbrs (fun a r => a + r) 0 inv (nbrs p)

/-- The independent brute-force reference walk, stencil_on_cells.hpp lines
124-137: ref starts at 0 and accumulates ref += in(*iter) over the
neighbours_of enumeration of the same topology provider. -/
def bruteForce (nbrs : GridPoint → List GridPoint) (inv : GridPoint → ℚ)
    (p : GridPoint) : ℚ :=
  (nbrs p).foldl (fun acc n => acc + inv n) 0

/-- Modelled from the spec: execute_kernel_functor_host is not under src/.
Per spec section 4.5 a strategy must "visit every (color, horizontal-interior,
vertical-interval) GridPoint exactly once per Schedule execution order,
excluding halo", invoking the Rule's update function there; every other
GridPoint of the output storage is untouched. -/
def runStencil (m : Mesh) (hn hm : Nat) (nbrs : GridPoint → List GridPoint)
    (inv : GridPoint → ℚ) (out : GridPoint → ℚ) : GridPoint → ℚ :=
  fun p => if interiorB m hn hm p then stencilDo nbrs inv p else out p

/-- Modelled from the spec: is_there_in_sequence (under
common/generic_metafunctions, not under src/) decides whether an element
occurs in a type sequence; per spec section 4.4 the derived predicate
"answers: does Stage X declare Placeholder P among its parameters?". -/
def is_there_in_sequence {α : Type} [DecidableEq α] (seq : List α) (a : α) :
    Bool :=
  decide (a ∈ seq)

/-- An execution stage, reduced to what esf_metafunctions.hpp consults: its
declared parameter list Esf::args_t. -/
structure Esf (α : Type) where
  args_t : List α

/-- esf_has_parameter_h<Arg>::apply<Esf>, esf_metafunctions.hpp lines 15-21:
is_there_in_sequence<Esf::args_t, Arg>. -/
def esf_has_parameter_h {α : Type} [DecidableEq α] (arg : α) (esf : Esf α) :
    Bool :=
  is_there_in_sequence esf.args_t arg

/-- The execution kernel strategies of the icosahedral grids backend; the host
one is src/'s execute_kernel_functor_host, the accelerator one is modelled
from the spec (section 4.5 names a host and an accelerator strategy). -/
inductive KernelExec where
  | execute_kernel_functor_host : KernelExec
  | execute_kernel_functor_cuda : KernelExec
  deriving DecidableEq, Repr

/-- The dimension tags of grid_traits_arch: dim_i_t, dim_c_t, dim_j_t,
dim_k_t. -/
inductive IcoDim where
  | dim_i : IcoDim
  | dim_c : IcoDim
  | dim_j : IcoDim
  | dim_k : IcoDim
  deriving DecidableEq, Repr

/-- What a grid_traits_arch specialization provides: the kernel executor type
and the static_uint value of each dimension tag. -/
structure GridTraits where
  kernelExecutor : KernelExec
  dims : IcoDim → Nat

/-- grid_traits_arch<enumtype::Host>, grid_traits_host.hpp lines 8-21:
kernel_functor_executer::type = execute_kernel_functor_host, and
dim_i_t = static_uint<0>, dim_c_t = static_uint<1>, dim_j_t = static_uint<2>,
dim_k_t = static_uint<3>. -/
def grid_traits_arch_host : GridTraits :=
  { kernelExecutor := .execute_kernel_functor_host
    dims := fun d =>
      match d with
      | .dim_i => 0
      | .dim_c => 1
      | .dim_j => 2
      | .dim_k => 3 }

/-! ## Helper lemmas -/

/-- Canonical form of operator[]: in-range access yields the element;
out-of-range access fails the assertion when asserts are active and is
undefined behavior otherwise. -/
lemma opIndex_eq {T : Type} (cfg : BuildCfg) (mem : Int → T)
    (hp : hybrid_pointer) (i : Int) :
    opIndex cfg mem hp i =
      if 0 ≤ i ∧ i < hp.size then Access.ok (mem (hp.pointer_to_use + i))
      else if assertActive cfg then Access.assertFail
      else Access.undefBehavior := by
  unfold opIndex
  split_ifs <;> first | rfl | omega

/-- Left-folding `fun res n => inv n + res` agrees with left-folding
`fun acc n => acc + inv n` from any seed. -/
lemma foldl_swap_add (inv : GridPoint → ℚ) (l : List GridPoint) (s : ℚ) :
    l.foldl (fun res n => inv n + res) s = l.foldl (fun acc n => acc + inv n) s := by
  induction l generalizing s with
  | nil => rfl
  | cons x xs ih =>
      simp only [List.foldl_cons]
      rw [add_comm (inv x) s, ih]

/-! ## Claim theorems -/

/-- C1: for every mesh and every interior GridPoint, the stencil whose Rule
computes out = reduce(add, 0.0, neighborsOf(cells, cells, point)) yields, at
that GridPoint, the value of the independent brute-force walk over the same
provider's neighbor table, to within 1e-10 absolute tolerance. -/
theorem stencil_on_cells_matches_bruteforce (m : Mesh)
    (nbrs : GridPoint → List GridPoint) (inv out : GridPoint → ℚ)
    (p : GridPoint) (h : interiorB m halo_nc halo_mc p = true) :
    |runStencil m halo_nc halo_mc nbrs inv out p - bruteForce nbrs inv p| ≤
      1 / 10 ^ 10 := by
  unfold runStencil
  rw [h]
  simp only [if_true]
  unfold stencilDo reduceNbrs bruteForce
  rw [foldl_swap_add]
  simp

/-- Example mesh of the concrete scenario of spec section 8:
d1 = d2 = d3 = 6, cells have 2 colors. -/
def exMesh : Mesh := ⟨6, 6, 6, 2⟩

/-- A concrete (cells, cells) neighbor table fragment for witnesses. -/
def exNbrs : GridPoint → List GridPoint :=
  fun _ => [⟨0, 0, 0, 0⟩, ⟨2, 1, 1, 0⟩, ⟨1, 1, 1, 0⟩]

/-- A concrete input field for witnesses. -/
def exInv : GridPoint → ℚ := fun p => (p.i : ℚ) + (p.j : ℚ)

/-- Witness for C1 at the interior GridPoint (1, 0, 1, 0) of the 6x6x6 mesh. -/
theorem stencil_on_cells_matches_bruteforce_witness :
    interiorB exMesh halo_nc halo_mc ⟨1, 0, 1, 0⟩ = true ∧
    |runStencil exMesh halo_nc halo_mc exNbrs exInv (fun _ => 0) ⟨1, 0, 1, 0⟩ -
      bruteForce exNbrs exInv ⟨1, 0, 1, 0⟩| ≤ 1 / 10 ^ 10 :=
  ⟨by decide,
   stencil_on_cells_matches_bruteforce exMesh exNbrs exInv (fun _ => 0)
     ⟨1, 0, 1, 0⟩ (by decide)⟩

/-- C2: indexed access through operator[] with i outside [0, size) is a
checked assertion failure exactly in debug (assert-active) configurations and
undefined behavior otherwise; an in-range access in any configuration passes
both assertions and returns the element. -/
theorem opIndex_checked_in_debug_only (cfg : BuildCfg) (T : Type)
    (mem : Int → T) (hp : hybrid_pointer) (i : Int) :
    opIndex cfg mem hp i =
      if 0 ≤ i ∧ i < hp.size then Access.ok (mem (hp.pointer_to_use + i))
      else if assertActive cfg then Access.assertFail
      else Access.undefBehavior :=
  opIndex_eq cfg mem hp i

/-- C3: when accelerator-side allocation fails, allocate_it still allocates
the host buffer, records only a diagnostic line, and the constructor completes
with pointer_to_use bound to cpu_p. -/
theorem alloc_failure_is_diagnostic_only (cudaOk : Bool)
    (cpuAddr gpuAddr sz : Int) :
    (allocate_it true cudaOk).hostAllocated = true ∧
    (allocate_it true cudaOk).diagnostics =
      (if cudaOk then [] else [allocErrMsg]) ∧
    (allocate_it true false).gpuAllocated = false ∧
    (hostCtor cpuAddr gpuAddr sz).pointer_to_use =
      (hostCtor cpuAddr gpuAddr sz).cpu_p := by
  cases cudaOk <;> exact ⟨rfl, rfl, rfl, rfl⟩

/-- C4: the copy constructor copies cpu_p, gpu_p and size by value and binds
pointer_to_use to gpu_p under the accelerator context and to cpu_p otherwise;
a freshly host-constructed hybrid_pointer has pointer_to_use = cpu_p. -/
theorem copy_ctor_by_value_and_context_binding (cfg : BuildCfg)
    (other : hybrid_pointer) (cpuAddr gpuAddr sz : Int) :
    (copyCtor cfg other).cpu_p = other.cpu_p ∧
    (copyCtor cfg other).gpu_p = other.gpu_p ∧
    (copyCtor cfg other).size = other.size ∧
    (copyCtor cfg other).pointer_to_use =
      (if cfg.cudaArch then other.gpu_p else other.cpu_p) ∧
    (hostCtor cpuAddr gpuAddr sz).pointer_to_use =
      (hostCtor cpuAddr gpuAddr sz).cpu_p :=
  ⟨rfl, rfl, rfl, rfl, rfl⟩

/-- C5: after the out storage is filled with 0.0, any number of runs leaves
every GridPoint outside the interior box at 0.0. -/
theorem halo_points_keep_init_value (m : Mesh)
    (nbrs : GridPoint → List GridPoint) (inv : GridPoint → ℚ) (n : Nat)
    (p : GridPoint) (h : interiorB m halo_nc halo_mc p = false) :
    (runStencil m halo_nc halo_mc nbrs inv)^[n] (fun _ => (0 : ℚ)) p = 0 := by
  induction n with
  | zero => rfl
  | succ k ih =>
      rw [Function.iterate_succ_apply']
      unfold runStencil
      rw [h]
      simpa using ih

/-- Witness for C5 at the halo GridPoint (0, 0, 2, 0) after three runs. -/
theorem halo_points_keep_init_value_witness :
    interiorB exMesh halo_nc halo_mc ⟨0, 0, 2, 0⟩ = false ∧
    (runStencil exMesh halo_nc halo_mc exNbrs exInv)^[3]
      (fun _ => (0 : ℚ)) ⟨0, 0, 2, 0⟩ = 0 :=
  ⟨by decide,
   halo_points_keep_init_value exMesh exNbrs exInv 3 ⟨0, 0, 2, 0⟩ (by decide)⟩

/-- C6: writing V into the host buffer, syncing to the device, running an
identity Rule in the accelerator context and syncing back leaves the
host-visible element equal to V. -/
theorem dual_resident_round_trip (T : Type) (m : HPMem T) (i : Nat) (v : T)
    (h : i < m.size) :
    (update_cpu true (identityKernelDevice (update_gpu true
      (writeHost m i v)))).cpu i = v := by
  simp [update_cpu, update_gpu, identityKernelDevice, writeHost, h]

/-- A concrete dual-resident buffer of three integers for the C6 witness. -/
def exMem : HPMem Int := ⟨fun _ => 0, fun _ => 5, 3⟩

/-- Witness for C6: round trip of the value 42 through element 1 of exMem. -/
theorem dual_resident_round_trip_witness :
    1 < exMem.size ∧
    (update_cpu true (identityKernelDevice (update_gpu true
      (writeHost exMem 1 42)))).cpu 1 = 42 :=
  ⟨by decide, dual_resident_round_trip Int exMem 1 42 (by decide)⟩

/-- C7: grid_traits_arch for the Host backend yields
execute_kernel_functor_host as the kernel executor and assigns i to 0, color
to 1, j to 2, k to 3, matching the component order of a GridPoint. -/
theorem host_backend_traits (p : GridPoint) :
    grid_traits_arch_host.kernelExecutor =
      KernelExec.execute_kernel_functor_host ∧
    grid_traits_arch_host.dims IcoDim.dim_i = 0 ∧
    grid_traits_arch_host.dims IcoDim.dim_c = 1 ∧
    grid_traits_arch_host.dims IcoDim.dim_j = 2 ∧
    grid_traits_arch_host.dims IcoDim.dim_k = 3 ∧
    (components p)[grid_traits_arch_host.dims IcoDim.dim_i]? = some p.i ∧
    (components p)[grid_traits_arch_host.dims IcoDim.dim_c]? = some p.c ∧
    (components p)[grid_traits_arch_host.dims IcoDim.dim_j]? = some p.j ∧
    (components p)[grid_traits_arch_host.dims IcoDim.dim_k]? = some p.k :=
  ⟨rfl, rfl, rfl, rfl, rfl, rfl, rfl, rfl, rfl⟩

/-- C8: esf_has_parameter_h answers membership of Arg in the Stage's declared
parameter list args_t, true exactly when Arg occurs there. -/
theorem esf_has_parameter_h_iff_mem (α : Type) [DecidableEq α] (arg : α)
    (esf : Esf α) :
    esf_has_parameter_h arg esf = true ↔ arg ∈ esf.args_t := by
  simp [esf_has_parameter_h, is_there_in_sequence]

/-- C9: operator+, operator* and the conversions to T* perform no bounds or
null check in any configuration; only operator[] can fail an assertion, and
it does so exactly when asserts are active and i is out of range. -/
theorem no_checks_outside_opIndex (cfg : BuildCfg) (T : Type) (mem : Int → T)
    (hp : hybrid_pointer) (i : Int) :
    opPlus cfg hp i = Access.ok (hp.pointer_to_use + i) ∧
    opStar cfg mem hp = Access.ok (mem hp.pointer_to_use) ∧
    convPtr cfg hp = Access.ok hp.pointer_to_use ∧
    (opIndex cfg mem hp i = Access.assertFail ↔
      assertActive cfg = true ∧ (i < 0 ∨ hp.size ≤ i)) := by
  refine ⟨rfl, rfl, rfl, ?_⟩
  rw [opIndex_eq]
  by_cases hin : 0 ≤ i ∧ i < hp.size
  · rw [if_pos hin]
    constructor
    · intro hcontra
      exact absurd hcontra (by simp)
    · rintro ⟨-, hrange⟩
      omega
  · rw [if_neg hin]
    by_cases ha : assertActive cfg = true
    · rw [if_pos ha]
      constructor
      · intro _
        exact ⟨ha, by omega⟩
      · intro _
        rfl
    · rw [if_neg ha]
      constructor
      · intro hcontra
        exact absurd hcontra (by simp)
      · rintro ⟨ha2, -⟩
        exact absurd ha2 ha

/-- C10: in a host-only build (__CUDACC__ undefined) the sync calls are
no-ops leaving the whole buffer state unchanged, and allocation and release
touch only the host buffer. -/
theorem host_only_build_sync_noop (T : Type) (m : HPMem T) (cudaOk : Bool) :
    update_gpu false m = m ∧
    update_cpu false m = m ∧
    (allocate_it false cudaOk).hostAllocated = true ∧
    (allocate_it false cudaOk).gpuAllocated = false ∧
    (allocate_it false cudaOk).diagnostics = [] ∧
    (free_it false).hostFreed = true ∧
    (free_it false).gpuFreed = false :=
  ⟨rfl, rfl, rfl, rfl, rfl, rfl, rfl⟩

end GridTools
